import Mathlib

/-!
Verification of the command dispatch layer of the Solana Exchange Telegram
bot (`bot.js`).  The handlers registered on the Telegraf instance are embedded
as pure Lean functions; the two external collaborators the wallet and price
commands depend on (the Solana RPC connection and the market-data HTTP
endpoint) are abstracted as an environment record whose fields give the
outcome of each external call.  The Wallet Registry and the monitor command
are described in the specification but are absent from the source; they are
modelled from the spec and marked as such.
-/

namespace SolanaBot

/-- A parsed inbound chat command: the command name (first token, without the
slash), the full message text, and the originating chat identifier. -/
structure Command where
  name : String
  text : String
  chatId : Nat
deriving Repr, DecidableEq

/-- Outcomes of the external collaborators used by the handlers in `bot.js`:
whether `new PublicKey(addr)` succeeds for a given string, the result of
`solanaConnection.getBalance` in lamports, and the result of the market-data
GET for the price command (`Except.ok none` models a response body whose
`SOL` field is missing, which makes `.toFixed` throw inside the try block). -/
structure BotEnv where
  validAddress : String → Bool
  getBalance : String → Except String Nat
  priceData : Except String (Option Rat)

/-- Reply of the start command (bot.js line 26). -/
def startMsg : String :=
  "Welcome to the Solana Exchange Bot! 🚀\n\nAvailable commands:\n/price - Fetch token price\n/wallet - Check wallet balance\n/trade - Trade tokens\n"

/-- Apology reply of the price command on any failure (bot.js line 37). -/
def priceFailMsg : String := "Failed to fetch token price. Please try again later. ⚠️"

/-- Usage hint of the wallet command when no address is supplied (line 47). -/
def walletUsageMsg : String :=
  "Please provide a valid Solana wallet address. Example: /wallet <address> 🛠️"

/-- Generic failure reply of the wallet command (bot.js line 54), produced by
the single catch block around both address construction and balance fetch. -/
def walletErrMsg : String :=
  "Invalid wallet address or failed to fetch balance. Please try again. ⚠️"

/-- Reply of the trade placeholder command (bot.js line 61). -/
def tradeMsg : String := "Trading functionality is under development. Stay tuned! 🛠️"

/-- Accumulator-based splitting of a character list at every single space,
matching the JavaScript expression `text.split(' ')`: separators are not
collapsed and an empty input yields one empty field. -/
def splitAux : List Char → List Char → List (List Char)
  | cur, [] => [cur.reverse]
  | cur, c :: rest =>
    if c = ' ' then cur.reverse :: splitAux [] rest else splitAux (c :: cur) rest

/-- The JavaScript `text.split(' ')` used at bot.js line 45. -/
def jsSplitSpace (s : String) : List String :=
  (splitAux [] s.data).map (fun l => String.mk l)

/-- Left-pads a digit string with zeros to width nine, the number of decimal
places of the fixed divisor 1e9. -/
def padTo9 (s : String) : String :=
  String.mk (List.replicate (9 - s.length) '0') ++ s

/-- Removes trailing zero digits from a fractional digit string. -/
def dropTrailingZeros (s : String) : String :=
  String.mk (s.data.reverse.dropWhile (fun c => c = '0')).reverse

/-- The JavaScript rendering of `balance / 1e9` interpolated at bot.js
line 52: the exact decimal expansion of lamports over 10^9 with trailing
zeros removed, and no fractional part printed when it is zero. -/
def formatLamports (lamports : Nat) : String :=
  let whole := lamports / 1000000000
  let frac := lamports % 1000000000
  if frac = 0 then toString whole
  else toString whole ++ "." ++ dropTrailingZeros (padTo9 (toString frac))

/-- Result of one run of the wallet handler: the reply text, whether address
construction (`new PublicKey`) was attempted, and whether the balance RPC
call was made. -/
structure WalletOutcome where
  reply : String
  validationAttempted : Bool
  balanceFetched : Bool
deriving Repr, DecidableEq

/-- The wallet command handler (bot.js lines 43 to 57): extract the token at
index one of the text split on single spaces; a missing or empty token (both
falsy in JavaScript) yields the usage hint with no further work; otherwise
address construction and the balance fetch run inside one try block whose
catch replies with the single generic failure message. -/
def walletHandler (env : BotEnv) (text : String) : WalletOutcome :=
  match (jsSplitSpace text)[1]? with
  | none => ⟨walletUsageMsg, false, false⟩
  | some addr =>
    if addr = "" then ⟨walletUsageMsg, false, false⟩
    else if env.validAddress addr then
      match env.getBalance addr with
      | Except.ok lamports =>
        ⟨"Wallet balance: " ++ formatLamports lamports ++ " SOL 💎", true, true⟩
      | Except.error _ => ⟨walletErrMsg, true, true⟩
    else ⟨walletErrMsg, true, false⟩

/-- JavaScript `Number.prototype.toFixed(2)` on a nonnegative rational: the
nearest multiple of one hundredth, ties rounded to the larger value, printed
with exactly two fractional digits. -/
def toFixed2 (p : Rat) : String :=
  let n : Int := ⌊p * 100 + 1/2⌋
  let whole := n / 100
  let frac := (n % 100).natAbs
  toString whole ++ "." ++ (if frac < 10 then "0" ++ toString frac else toString frac)

/-- The price command handler (bot.js lines 31 to 40): on a successful GET
whose body carries the SOL field, reply with the price formatted to two
decimals; a transport failure or a missing field both land in the catch
block, which replies with the fixed apology. -/
def priceHandler (r : Except String (Option Rat)) : String :=
  match r with
  | Except.ok (some p) => "Current SOL/USDC price: $" ++ toFixed2 p ++ " 💰"
  | Except.ok none => priceFailMsg
  | Except.error _ => priceFailMsg

/-- The command names registered on the Telegraf instance in bot.js. -/
def recognizedCommands : List String := ["start", "price", "wallet", "trade"]

/-- Dispatch of an inbound command, as determined by the `bot.command`
registrations in bot.js: each registered name runs its handler and produces
exactly one reply; a name with no registered handler produces no reply at
all, since bot.js installs no fallback handler. -/
def dispatch (env : BotEnv) (cmd : Command) : List String :=
  if cmd.name = "start" then [startMsg]
  else if cmd.name = "price" then [priceHandler env.priceData]
  else if cmd.name = "wallet" then [(walletHandler env cmd.text).reply]
  else if cmd.name = "trade" then [tradeMsg]
  else []

/-- Result of one notification send: how many transport attempts were made,
what was logged, and whether delivery succeeded. -/
structure NotifyResult where
  attempts : Nat
  logged : List String
  delivered : Bool
deriving Repr, DecidableEq

/-- `sendNotification` (bot.js lines 65 to 69): exactly one
`telegram.sendMessage` attempt whose rejection is consumed by `.catch`, which
only logs; the function always returns normally and never retries. -/
def sendNotification (transport : Except String Unit) : NotifyResult :=
  match transport with
  | Except.ok _ => ⟨1, [], true⟩
  | Except.error e => ⟨1, ["Error sending notification: " ++ e], false⟩

/-- Modelled from the spec: the Wallet Registry component and the register
command appear in the specification but are absent from the source; the
registry is a mapping from owner identity to registered address where
`register` inserts or overwrites the entry for the owner. -/
def register (reg : List (String × String)) (owner addr : String) :
    List (String × String) :=
  (owner, addr) :: reg.filter (fun e => !(e.1 == owner))

/-- Modelled from the spec: registry `lookup` returns the current entry for
the owner, or none for the not-registered case. -/
def lookup (reg : List (String × String)) (owner : String) : Option String :=
  (reg.find? (fun e => e.1 == owner)).map Prod.snd

/-- Modelled from the spec: the monitor command fetches the most recent five
confirmed transaction signatures for an address (history given most recent
first). -/
def fetchRecentSignatures (history : List String) : List String := history.take 5

/-- Modelled from the spec: the monitor reply for an empty signature list. -/
def monitorNoRecentMsg : String := "No recent transactions found."

/-- Modelled from the spec: the monitor reply when the RPC call fails. -/
def monitorFailMsg : String :=
  "Failed to fetch recent transactions. Please try again. ⚠️"

/-- Modelled from the spec: the monitor command handler; a failed fetch
replies with the failure message, an empty result with the no-recent message,
and a nonempty result lists the signatures. -/
def monitorHandler (r : Except String (List String)) : String :=
  match r with
  | Except.error _ => monitorFailMsg
  | Except.ok [] => monitorNoRecentMsg
  | Except.ok sigs => "Recent transactions: " ++ String.intercalate ", " sigs

/-- Modelled from the spec: the monitor command on a successful RPC call over
the given signature history. -/
def monitorCommand (history : List String) : String :=
  monitorHandler (Except.ok (fetchRecentSignatures history))

/-- Substring test on strings, character-list based and executable. -/
def containsSub (s pat : String) : Bool :=
  (List.range (s.length + 1)).any
    (fun i => (s.data.drop i).take pat.data.length == pat.data)

/-- Two successive runs of the wallet handler on the same message against the
same environment, modelling two wallet commands with the remote balance
unchanged in between. -/
def walletTwice (env : BotEnv) (text : String) : String × String :=
  ((walletHandler env text).reply, (walletHandler env text).reply)

/-- A concrete environment for witnesses: one valid address whose balance is
2500000000 lamports, and a successful price fetch. -/
def testEnv : BotEnv :=
  ⟨fun a => a == "Addr1", fun _ => Except.ok 2500000000, Except.ok (some 20)⟩

/-- A concrete environment in which every external call fails. -/
def failEnv : BotEnv :=
  ⟨fun _ => false, fun _ => Except.error "rpc down", Except.error "http 500"⟩

/-- A concrete environment with a valid address but a failing balance RPC. -/
def badRpcEnv : BotEnv :=
  ⟨fun a => a == "Addr1", fun _ => Except.error "timeout", Except.error "http 500"⟩

/-- Helper: the success path of the wallet handler, characterised by the
argument extraction and the two external outcomes. -/
theorem walletHandler_success (env : BotEnv) (text addr : String) (lamports : Nat)
    (harg : (jsSplitSpace text)[1]? = some addr) (hne : addr ≠ "")
    (hv : env.validAddress addr = true)
    (hb : env.getBalance addr = Except.ok lamports) :
    walletHandler env text =
      ⟨"Wallet balance: " ++ formatLamports lamports ++ " SOL 💎", true, true⟩ := by
  unfold walletHandler
  rw [harg]
  simp [hne, hv, hb]

/-- Claim C1, counterexample: dispatch of the unrecognized command name foo
produces no reply at all, so in particular it does not return an unknown
command reply. -/
theorem c1_unknown_counterexample :
    dispatch testEnv ⟨"foo", "/foo", 1⟩ = [] := rfl

/-- Claim C1 (amended): for every Command whose name is outside the set of
registered command names, dispatch never raises (it is a total function of
the embedding) and produces no reply at all, since bot.js installs no
fallback handler; there is no unknown command reply. -/
theorem c1_unrecognized_no_reply (env : BotEnv) (cmd : Command)
    (h : cmd.name ∉ recognizedCommands) : dispatch env cmd = [] := by
  simp only [recognizedCommands, List.mem_cons, List.not_mem_nil, or_false,
    not_or] at h
  obtain ⟨h1, h2, h3, h4⟩ := h
  simp [dispatch, h1, h2, h3, h4]

/-- Claim C1 witness: the amended theorem at the concrete command foo. -/
theorem c1_unrecognized_no_reply_witness :
    dispatch failEnv ⟨"bar", "/bar", 2⟩ = [] :=
  c1_unrecognized_no_reply failEnv ⟨"bar", "/bar", 2⟩ (by decide)

/-- Claim C2: for a wallet command carrying a nonempty address argument, a
failure at address construction and a failure at the balance lookup produce
the identical generic reply; the single catch block never distinguishes the
two causes. -/
theorem c2_wallet_failures_collapse (env : BotEnv) (text addr : String)
    (harg : (jsSplitSpace text)[1]? = some addr) (hne : addr ≠ "")
    (hfail : env.validAddress addr = false ∨
      ∃ e, env.getBalance addr = Except.error e) :
    (walletHandler env text).reply = walletErrMsg := by
  unfold walletHandler
  rw [harg]
  rcases hfail with hv | ⟨e, he⟩
  · simp [hne, hv]
  · cases hvv : env.validAddress addr
    · simp [hne, hvv]
    · simp [hne, hvv, he]

/-- Claim C2 witness: both failure causes at concrete environments yield the
same generic reply. -/
theorem c2_wallet_failures_collapse_witness :
    (walletHandler failEnv "/wallet Addr1").reply = walletErrMsg ∧
    (walletHandler badRpcEnv "/wallet Addr1").reply = walletErrMsg :=
  ⟨c2_wallet_failures_collapse failEnv "/wallet Addr1" "Addr1" rfl (by decide)
      (Or.inl rfl),
   c2_wallet_failures_collapse badRpcEnv "/wallet Addr1" "Addr1" rfl (by decide)
      (Or.inr ⟨"timeout", rfl⟩)⟩

/-- Claim C3: every Price Service failure, a transport error as well as a
response body with the SOL field missing, makes the price command reply with
the fixed apology, and dispatch returns it as the single reply instead of
propagating the error. -/
theorem c3_price_failure_swallowed (env : BotEnv) (text : String) (cid : Nat)
    (h : (∃ e, env.priceData = Except.error e) ∨ env.priceData = Except.ok none) :
    dispatch env ⟨"price", text, cid⟩ = [priceFailMsg] := by
  rcases h with ⟨e, he⟩ | hn
  · simp [dispatch, priceHandler, he]
  · simp [dispatch, priceHandler, hn]

/-- Claim C3 witness: the theorem at a concrete failing environment. -/
theorem c3_price_failure_swallowed_witness :
    dispatch failEnv ⟨"price", "/price", 1⟩ = [priceFailMsg] :=
  c3_price_failure_swallowed failEnv "/price" 1 (Or.inl ⟨"http 500", rfl⟩)

/-- Claim C4 (spec-modelled registry): register followed by lookup for the
same owner returns exactly the registered address, and a second register for
the same owner with a different address overwrites the first entry. -/
theorem c4_register_lookup_last_write_wins (reg : List (String × String))
    (owner a1 a2 : String) (h : a1 ≠ a2) :
    lookup (register reg owner a1) owner = some a1 ∧
    lookup (register (register reg owner a1) owner a2) owner = some a2 := by
  constructor <;> simp [lookup, register]

/-- Claim C4 witness: the theorem at concrete owners and addresses. -/
theorem c4_register_lookup_last_write_wins_witness :
    lookup (register [] "owner1" "AddrA") "owner1" = some "AddrA" ∧
    lookup (register (register [] "owner1" "AddrA") "owner1" "AddrB") "owner1" =
      some "AddrB" :=
  c4_register_lookup_last_write_wins [] "owner1" "AddrA" "AddrB" (by decide)

/-- Claim C5 (spec-modelled monitor): an empty signature history yields the
no recent transactions message, which is not the failure message; a nonempty
history yields a reply listing the five most recent signatures. -/
theorem c5_monitor_empty_and_take_five (history : List String) :
    (history = [] →
      monitorCommand history = monitorNoRecentMsg ∧
      monitorNoRecentMsg ≠ monitorFailMsg) ∧
    (history ≠ [] →
      monitorCommand history =
        "Recent transactions: " ++ String.intercalate ", " (history.take 5)) := by
  cases history with
  | nil => exact ⟨fun _ => ⟨rfl, by decide⟩, fun h => absurd rfl h⟩
  | cons a t => exact ⟨fun h => by simp at h, fun _ => rfl⟩

/-- Claim C5 witness: both branches at concrete histories, including one with
six signatures of which exactly five are listed. -/
theorem c5_monitor_witness :
    (monitorCommand [] = monitorNoRecentMsg ∧ monitorNoRecentMsg ≠ monitorFailMsg) ∧
    monitorCommand ["s1", "s2", "s3", "s4", "s5", "s6"] =
      "Recent transactions: " ++
        String.intercalate ", " (["s1", "s2", "s3", "s4", "s5", "s6"].take 5) :=
  ⟨(c5_monitor_empty_and_take_five []).1 rfl,
   (c5_monitor_empty_and_take_five ["s1", "s2", "s3", "s4", "s5", "s6"]).2
      (by decide)⟩

/-- Claim C6, counterexample: for a successful fetch of 2500000000 lamports
the reply text shows only the derived decimal 2.5; the smallest unit integer
2500000000 does not occur in the reply, so it is not reported alongside the
decimal. -/
theorem c6_only_decimal_counterexample :
    (walletHandler testEnv "/wallet Addr1").reply = "Wallet balance: 2.5 SOL 💎" ∧
    containsSub (walletHandler testEnv "/wallet Addr1").reply "2500000000" = false :=
  ⟨rfl, by decide⟩

/-- Claim C6 (amended): on every successful balance fetch the reply reports
only the decimal derived by the fixed divisor 1e9, interpolated into the
balance template; the smallest unit integer is not included in the reply. -/
theorem c6_reply_shows_only_decimal (env : BotEnv) (text addr : String)
    (lamports : Nat)
    (harg : (jsSplitSpace text)[1]? = some addr) (hne : addr ≠ "")
    (hv : env.validAddress addr = true)
    (hb : env.getBalance addr = Except.ok lamports) :
    (walletHandler env text).reply =
      "Wallet balance: " ++ formatLamports lamports ++ " SOL 💎" := by
  rw [walletHandler_success env text addr lamports harg hne hv hb]

/-- Claim C6 witness: the amended theorem at the concrete environment. -/
theorem c6_reply_shows_only_decimal_witness :
    (walletHandler testEnv "/wallet Addr1").reply =
      "Wallet balance: " ++ formatLamports 2500000000 ++ " SOL 💎" :=
  c6_reply_shows_only_decimal testEnv "/wallet Addr1" "Addr1" 2500000000 rfl
    (by decide) rfl rfl

/-- Claim C7: a wallet command with a valid address whose balance fetch
returns 2500000000 lamports replies with the displayed balance 2.5. -/
theorem c7_balance_displayed_2_5 (env : BotEnv) (text addr : String)
    (harg : (jsSplitSpace text)[1]? = some addr) (hne : addr ≠ "")
    (hv : env.validAddress addr = true)
    (hb : env.getBalance addr = Except.ok 2500000000) :
    (walletHandler env text).reply = "Wallet balance: 2.5 SOL 💎" := by
  rw [walletHandler_success env text addr 2500000000 harg hne hv hb]
  rfl

/-- Claim C7 witness: the theorem at the concrete environment. -/
theorem c7_balance_displayed_2_5_witness :
    (walletHandler testEnv "/wallet Addr1").reply = "Wallet balance: 2.5 SOL 💎" :=
  c7_balance_displayed_2_5 testEnv "/wallet Addr1" "Addr1" rfl (by decide) rfl rfl

/-- Claim C8: two wallet commands with the same valid address against the
same environment, that is with the remote balance unchanged in between,
produce two identical replies, each equal to the success reply; the handler
reads no mutable state, so the equality holds by construction. -/
theorem c8_wallet_idempotent (env : BotEnv) (text addr : String) (lamports : Nat)
    (harg : (jsSplitSpace text)[1]? = some addr) (hne : addr ≠ "")
    (hv : env.validAddress addr = true)
    (hb : env.getBalance addr = Except.ok lamports) :
    (walletTwice env text).1 = (walletTwice env text).2 ∧
    (walletTwice env text).1 =
      "Wallet balance: " ++ formatLamports lamports ++ " SOL 💎" := by
  refine ⟨rfl, ?_⟩
  show (walletHandler env text).reply = _
  rw [walletHandler_success env text addr lamports harg hne hv hb]

/-- Claim C8 witness: the theorem at the concrete environment. -/
theorem c8_wallet_idempotent_witness :
    (walletTwice testEnv "/wallet Addr1").1 = (walletTwice testEnv "/wallet Addr1").2 ∧
    (walletTwice testEnv "/wallet Addr1").1 =
      "Wallet balance: " ++ formatLamports 2500000000 ++ " SOL 💎" :=
  c8_wallet_idempotent testEnv "/wallet Addr1" "Addr1" 2500000000 rfl (by decide)
    rfl rfl

/-- Claim C9: a transport failure of a fired notification is logged, the
send returns normally so nothing propagates out of it, and exactly one
transport attempt is made, so the send is never retried. -/
theorem c9_notification_logged_never_retried (e : String) :
    sendNotification (Except.error e) =
      ⟨1, ["Error sending notification: " ++ e], false⟩ := rfl

/-- Claim C10: when the token at index one of the message text split on
single spaces is absent or empty, the wallet handler replies with the usage
hint, attempts no address construction and makes no balance RPC call. -/
theorem c10_wallet_missing_argument (env : BotEnv) (text : String)
    (h : (jsSplitSpace text)[1]? = none ∨ (jsSplitSpace text)[1]? = some "") :
    walletHandler env text = ⟨walletUsageMsg, false, false⟩ := by
  unfold walletHandler
  rcases h with h | h
  · rw [h]
  · rw [h]
    rfl

/-- Claim C10 witness: the theorem at the bare command and at the command
followed by two consecutive spaces before an address. -/
theorem c10_wallet_missing_argument_witness :
    walletHandler testEnv "/wallet" = ⟨walletUsageMsg, false, false⟩ ∧
    walletHandler testEnv "/wallet  Addr1" = ⟨walletUsageMsg, false, false⟩ :=
  ⟨c10_wallet_missing_argument testEnv "/wallet" (Or.inl rfl),
   c10_wallet_missing_argument testEnv "/wallet  Addr1" (Or.inr rfl)⟩

end SolanaBot
